import Mathlib

/-!
# ScarletUI: the OpenGL loader shim and the Skia include aggregator

A shallow embedding of the two source files of the repository:

* `External/Skia/skia.h`, which defines the constant `kAll_GrBackendState`;
* `Sources/CRenderer/graphics.c`, which defines `gladLoadGLLoaderFromGLFW`
  and `getProcAddress`.

The two C functions only call into external libraries (glad and GLFW). Those
libraries are parameters of the embedding (`Extern`); every call the
repository's code makes into them is recorded in an event trace, so that
"which external function was called, how often, and with what" can be stated.
-/

namespace ScarletUI

/-! ## `skia.h` -/

/-- Bit width of the C type `uint32_t`. -/
def UINT32_WIDTH : Nat := 32

/-- Conversion of an integer value to `uint32_t`: reduction modulo `2 ^ 32`. -/
def uint32_t (n : Nat) : Nat := n % 2 ^ UINT32_WIDTH

/-- The largest value of type `uint32_t`. -/
def UINT32_MAX : Nat := 2 ^ UINT32_WIDTH - 1

/-- Source: `static const uint32_t kAll_GrBackendState = 0xffffffff;` -/
def kAll_GrBackendState : Nat := uint32_t 0xffffffff

/-! ## `graphics.c` -/

/-- An address (`void*`, `GLFWglproc`); the null pointer is `0`. -/
abbrev Address := Nat

/-- The null address. -/
def NULL : Address := 0

/-- A resolver callback (`GLADloadproc`, and the type of `glfwGetProcAddress`):
given the state of the external libraries (which holds the current context)
and a procedure name it yields an address. -/
abbrev GLADloadproc (σ : Type) := σ → String → Address

/-- The external libraries the shim calls into, over their own state `σ`
(current context, glad's process-wide function-pointer table).

* `glfwGetProcAddress`: GLFW's resolver, a function of the state and the name;
* `gladLoadGLLoader`: glad's loader; it receives a resolver callback, returns
  an `int` status and leaves the libraries in a new state;
* `glad_table`: reads the entry of glad's function-pointer table for a name. -/
structure Extern (σ : Type) where
  glfwGetProcAddress : GLADloadproc σ
  gladLoadGLLoader : GLADloadproc σ → σ → Int × σ
  glad_table : σ → String → Address

/-- A call made by the repository's code into an external library. -/
inductive Event (σ : Type) where
  | gladLoadGLLoader (load : GLADloadproc σ)
  | glfwGetProcAddress (name : String)

/-- The world a C function runs in: the state of the external libraries and
the trace of external calls made so far (oldest first). -/
structure World (σ : Type) where
  ext : σ
  trace : List (Event σ)

/-- The call expression `gladLoadGLLoader(load)`: runs the external loader,
records the call and yields the loader's status. -/
def callGladLoadGLLoader {σ : Type} (E : Extern σ) (load : GLADloadproc σ)
    (w : World σ) : Int × World σ :=
  let r := E.gladLoadGLLoader load w.ext
  (r.1, { ext := r.2, trace := w.trace ++ [Event.gladLoadGLLoader load] })

/-- The call expression `glfwGetProcAddress(name)`: runs the external
resolver in the current state, records the call and yields the address. -/
def callGlfwGetProcAddress {σ : Type} (E : Extern σ) (name : String)
    (w : World σ) : Address × World σ :=
  (E.glfwGetProcAddress w.ext name,
    { ext := w.ext, trace := w.trace ++ [Event.glfwGetProcAddress name] })

/-- Source:
```
void gladLoadGLLoaderFromGLFW() {
    gladLoadGLLoader((GLADloadproc) glfwGetProcAddress);
}
```
The cast to `GLADloadproc` only changes the pointer's static type, so the
callback passed is the resolver itself. The call is an expression statement:
its value is discarded. -/
def gladLoadGLLoaderFromGLFW {σ : Type} (E : Extern σ) (w : World σ) :
    Unit × World σ :=
  let r := callGladLoadGLLoader E E.glfwGetProcAddress w
  ((), r.2)

/-- Source:
```
void* getProcAddress(const char* name) {
    return (void*)glfwGetProcAddress(name);
}
```
The cast to `void*` keeps the address. -/
def getProcAddress {σ : Type} (E : Extern σ) (name : String) (w : World σ) :
    Address × World σ :=
  callGlfwGetProcAddress E name w

/-! ## Observations on traces and call sequences -/

/-- The callbacks handed to `gladLoadGLLoader`, one per recorded call. -/
def loaderCalls {σ : Type} : List (Event σ) → List (GLADloadproc σ)
  | [] => []
  | Event.gladLoadGLLoader load :: es => load :: loaderCalls es
  | Event.glfwGetProcAddress _ :: es => loaderCalls es

/-- Number of recorded calls of `gladLoadGLLoader`. -/
def countLoaderCalls {σ : Type} (es : List (Event σ)) : Nat :=
  (loaderCalls es).length

/-- Calling `gladLoadGLLoaderFromGLFW` `n` times in sequence. -/
def callLoaderTimes {σ : Type} (E : Extern σ) : Nat → World σ → World σ
  | 0, w => w
  | n + 1, w => callLoaderTimes E n (gladLoadGLLoaderFromGLFW E w).2

/-- Calling `getProcAddress` on each name of a list in sequence; yields the
addresses returned and the final world. -/
def queryAll {σ : Type} (E : Extern σ) : List String → World σ →
    List Address × World σ
  | [], w => ([], w)
  | name :: names, w =>
    let r := getProcAddress E name w
    let rs := queryAll E names r.2
    (r.1 :: rs.1, rs.2)

/-! ## A concrete instance of the external libraries -/

/-- State of the example libraries: whether a context is current, and the
function-pointer table as an association list. -/
structure DemoState where
  contextCurrent : Bool
  table : List (String × Address)

/-- The example resolver: with a current context it knows two core functions;
without one it resolves nothing. -/
def demoResolve : GLADloadproc DemoState := fun s name =>
  if s.contextCurrent then
    if name = "glClear" then 4096
    else if name = "glDrawArrays" then 4112
    else 0
  else 0

/-- The names the example loader fills in. -/
def demoEntries : List String := ["glClear", "glDrawArrays"]

/-- The example libraries; the loader fills each entry from its callback and
returns the given status. -/
def demoExtern (status : Int) : Extern DemoState where
  glfwGetProcAddress := demoResolve
  gladLoadGLLoader := fun load s =>
    (status, { contextCurrent := s.contextCurrent,
               table := demoEntries.map (fun n => (n, load s n)) })
  glad_table := fun s name => (s.table.lookup name).getD 0

/-- A world with a current context, an empty table and no calls made. -/
def demoWorld : World DemoState :=
  { ext := { contextCurrent := true, table := [] }, trace := [] }

/-- A world without a current context. -/
def demoWorldNoContext : World DemoState :=
  { ext := { contextCurrent := false, table := [] }, trace := [] }

/-! ## Lemmas -/

theorem loaderCalls_append {σ : Type} (xs ys : List (Event σ)) :
    loaderCalls (xs ++ ys) = loaderCalls xs ++ loaderCalls ys := by
  induction xs with
  | nil => rfl
  | cons e es ih =>
    cases e with
    | gladLoadGLLoader load => simp [loaderCalls, ih]
    | glfwGetProcAddress name => simp [loaderCalls, ih]

/-! ## The constant -/

/-- C1: `kAll_GrBackendState` equals the maximum value of its 32-bit unsigned
type: it is `2 ^ 32 - 1 = 0xffffffff`, it is a `uint32_t` value, and each of
its 32 bits is set. -/
theorem kAll_GrBackendState_eq_max :
    kAll_GrBackendState = 2 ^ 32 - 1 ∧ kAll_GrBackendState = 0xffffffff ∧
      kAll_GrBackendState = UINT32_MAX ∧
      uint32_t kAll_GrBackendState = kAll_GrBackendState ∧
      ∀ i : Fin 32, Nat.testBit kAll_GrBackendState i.val = true := by
  refine ⟨by decide, by decide, by decide, by decide, ?_⟩
  decide

/-- C8: `kAll_GrBackendState` contains every combination of backend state
flags: for every 32-bit mask `m`, `m AND kAll_GrBackendState = m` and
`m OR kAll_GrBackendState = kAll_GrBackendState`, and every bit position
`0..31` of the constant is set. -/
theorem kAll_GrBackendState_absorbs_mask (m : Nat) (hm : m < 2 ^ UINT32_WIDTH) :
    m &&& kAll_GrBackendState = m ∧
      m ||| kAll_GrBackendState = kAll_GrBackendState ∧
      ∀ i : Fin UINT32_WIDTH, Nat.testBit kAll_GrBackendState i.val = true := by
  have hk : kAll_GrBackendState = 2 ^ 32 - 1 := by decide
  have hm32 : m < 2 ^ 32 := hm
  refine ⟨?_, ?_, ?_⟩
  · rw [hk, Nat.and_pow_two_sub_one_eq_mod, Nat.mod_eq_of_lt hm32]
  · rw [hk]
    apply Nat.eq_of_testBit_eq
    intro i
    rw [Nat.testBit_or, Nat.testBit_two_pow_sub_one]
    by_cases hi : i < 32
    · simp [hi]
    · have hge : 32 ≤ i := Nat.le_of_not_lt hi
      have hlt : m < 2 ^ i :=
        Nat.lt_of_lt_of_le hm32 (Nat.pow_le_pow_right (by decide) hge)
      simp [hi, Nat.testBit_lt_two_pow hlt]
  · decide

/-- Witness of C8 at the mask `0x00000105`. -/
theorem kAll_GrBackendState_absorbs_mask_witness :
    0x105 < 2 ^ UINT32_WIDTH ∧ 0x105 &&& kAll_GrBackendState = 0x105 ∧
      0x105 ||| kAll_GrBackendState = kAll_GrBackendState :=
  ⟨by decide,
    (kAll_GrBackendState_absorbs_mask 0x105 (by decide)).1,
    (kAll_GrBackendState_absorbs_mask 0x105 (by decide)).2.1⟩

/-! ## `getProcAddress` -/

theorem queryAll_ext {σ : Type} (E : Extern σ) (names : List String)
    (w : World σ) : (queryAll E names w).2.ext = w.ext := by
  induction names generalizing w with
  | nil => rfl
  | cons n ns ih =>
    show (queryAll E ns (getProcAddress E n w).2).2.ext = w.ext
    rw [ih]
    rfl

/-- C2: `getProcAddress` is a pure forwarding call with no caching. In every
world and for every name it returns exactly the address the resolver
`glfwGetProcAddress` gives for that name in the current state; this is so
after any sequence of earlier `getProcAddress` calls, and when the external
state changes after a first query of the same name the second query yields
the resolver's answer in the new state. -/
theorem getProcAddress_forwards {σ : Type} (E : Extern σ) (w : World σ)
    (name : String) (earlier : List String) (change : σ → σ) :
    (getProcAddress E name w).1 = E.glfwGetProcAddress w.ext name ∧
      (getProcAddress E name w).2.ext = w.ext ∧
      (getProcAddress E name (queryAll E earlier w).2).1
        = E.glfwGetProcAddress w.ext name ∧
      (getProcAddress E name
          { ext := change (getProcAddress E name w).2.ext,
            trace := (getProcAddress E name w).2.trace }).1
        = E.glfwGetProcAddress (change w.ext) name := by
  refine ⟨rfl, rfl, ?_, rfl⟩
  show E.glfwGetProcAddress (queryAll E earlier w).2.ext name = _
  rw [queryAll_ext]

/-- Witness of C2: without a current context the example resolver gives null
for `glClear`; once a context is current the same query gives the new
answer. -/
theorem getProcAddress_forwards_witness :
    (getProcAddress (demoExtern 1) "glClear" demoWorldNoContext).1 = NULL ∧
      (getProcAddress (demoExtern 1) "glClear"
          { ext := { contextCurrent := true,
                     table := (getProcAddress (demoExtern 1) "glClear"
                                demoWorldNoContext).2.ext.table },
            trace := (getProcAddress (demoExtern 1) "glClear"
                        demoWorldNoContext).2.trace }).1 = 4096 :=
  ⟨(getProcAddress_forwards (demoExtern 1) demoWorldNoContext "glClear" []
      (fun s => { contextCurrent := true, table := s.table })).1,
    (getProcAddress_forwards (demoExtern 1) demoWorldNoContext "glClear" []
      (fun s => { contextCurrent := true, table := s.table })).2.2.2⟩

/-- C3: `getProcAddress` returns the null address exactly when the resolver
returns null for the name; for a name the resolver cannot resolve the call
completes normally with result null, having made the one resolver call and
left the external state as it was. -/
theorem getProcAddress_null_iff {σ : Type} (E : Extern σ) (w : World σ)
    (name : String) :
    ((getProcAddress E name w).1 = NULL ↔
        E.glfwGetProcAddress w.ext name = NULL) ∧
      (E.glfwGetProcAddress w.ext name = NULL →
        getProcAddress E name w
          = (NULL, { ext := w.ext,
                     trace := w.trace ++ [Event.glfwGetProcAddress name] })) := by
  refine ⟨Iff.rfl, ?_⟩
  intro h
  show (E.glfwGetProcAddress w.ext name, _) = _
  rw [h]

/-- Witness of C3: a name the example resolver does not know. -/
theorem getProcAddress_null_iff_witness :
    (demoExtern 1).glfwGetProcAddress demoWorld.ext "glNoSuchFunctionEXT" = NULL ∧
      (getProcAddress (demoExtern 1) "glNoSuchFunctionEXT" demoWorld).1 = NULL :=
  ⟨by decide,
    (getProcAddress_null_iff (demoExtern 1) demoWorld "glNoSuchFunctionEXT").1.2
      (by decide)⟩

/-! ## `gladLoadGLLoaderFromGLFW` -/

theorem gladLoadGLLoaderFromGLFW_trace {σ : Type} (E : Extern σ) (w : World σ) :
    (gladLoadGLLoaderFromGLFW E w).2.trace
      = w.trace ++ [Event.gladLoadGLLoader E.glfwGetProcAddress] := rfl

theorem gladLoadGLLoaderFromGLFW_ext {σ : Type} (E : Extern σ) (w : World σ) :
    (gladLoadGLLoaderFromGLFW E w).2.ext
      = (E.gladLoadGLLoader E.glfwGetProcAddress w.ext).2 := rfl

/-- C4: one call of `gladLoadGLLoaderFromGLFW` makes exactly one external
call, a call of `gladLoadGLLoader`, and the callback it passes is
`glfwGetProcAddress` itself: the trace grows by that single event, the number
of loader calls grows by one, and the callback passed returns for every state
and name the address `glfwGetProcAddress` returns, which is also the address
`getProcAddress` returns. -/
theorem gladLoadGLLoaderFromGLFW_calls_loader_once {σ : Type} (E : Extern σ)
    (w : World σ) :
    (gladLoadGLLoaderFromGLFW E w).2.trace
        = w.trace ++ [Event.gladLoadGLLoader E.glfwGetProcAddress] ∧
      countLoaderCalls (gladLoadGLLoaderFromGLFW E w).2.trace
        = countLoaderCalls w.trace + 1 ∧
      ∃ load : GLADloadproc σ,
        loaderCalls (gladLoadGLLoaderFromGLFW E w).2.trace
          = loaderCalls w.trace ++ [load] ∧
        (gladLoadGLLoaderFromGLFW E w).2.ext
          = (E.gladLoadGLLoader load w.ext).2 ∧
        load = E.glfwGetProcAddress ∧
        ∀ (s : σ) (name : String) (tr : List (Event σ)),
          load s name = E.glfwGetProcAddress s name ∧
          load s name = (getProcAddress E name { ext := s, trace := tr }).1 := by
  refine ⟨rfl, ?_, E.glfwGetProcAddress, ?_, rfl, rfl, fun _ _ _ => ⟨rfl, rfl⟩⟩
  · rw [gladLoadGLLoaderFromGLFW_trace]
    simp [countLoaderCalls, loaderCalls_append, loaderCalls]
  · rw [gladLoadGLLoaderFromGLFW_trace, loaderCalls_append]
    rfl

/-- C5: the loader's status is not surfaced. For two instances of the
external libraries that agree on the resolver and on the state the loader
leaves behind, and so may differ only in the status `gladLoadGLLoader`
returns, `gladLoadGLLoaderFromGLFW` returns the same (unit) value and the
same resulting world. -/
theorem gladLoadGLLoaderFromGLFW_hides_status {σ : Type} (E₁ E₂ : Extern σ)
    (w : World σ)
    (hres : E₁.glfwGetProcAddress = E₂.glfwGetProcAddress)
    (hstate : ∀ (load : GLADloadproc σ) (s : σ),
      (E₁.gladLoadGLLoader load s).2 = (E₂.gladLoadGLLoader load s).2) :
    (gladLoadGLLoaderFromGLFW E₁ w).1 = (gladLoadGLLoaderFromGLFW E₂ w).1 ∧
      gladLoadGLLoaderFromGLFW E₁ w = gladLoadGLLoaderFromGLFW E₂ w := by
  refine ⟨rfl, ?_⟩
  show ((), ({ ext := (E₁.gladLoadGLLoader E₁.glfwGetProcAddress w.ext).2,
               trace := w.trace ++ [Event.gladLoadGLLoader E₁.glfwGetProcAddress] }
              : World σ))
      = ((), { ext := (E₂.gladLoadGLLoader E₂.glfwGetProcAddress w.ext).2,
               trace := w.trace ++ [Event.gladLoadGLLoader E₂.glfwGetProcAddress] })
  rw [hstate, hres]

/-- Witness of C5: the example loader succeeding (status `1`) and failing
(status `0`). -/
theorem gladLoadGLLoaderFromGLFW_hides_status_witness :
    ((demoExtern 1).gladLoadGLLoader demoResolve demoWorld.ext).1
        ≠ ((demoExtern 0).gladLoadGLLoader demoResolve demoWorld.ext).1 ∧
      gladLoadGLLoaderFromGLFW (demoExtern 1) demoWorld
        = gladLoadGLLoaderFromGLFW (demoExtern 0) demoWorld :=
  ⟨by decide,
    (gladLoadGLLoaderFromGLFW_hides_status (demoExtern 1) (demoExtern 0)
      demoWorld rfl (fun _ _ => rfl)).2⟩

/-- C6: if the loader fills the table entry for `name` with the address its
callback returns for `name`, and `glfwGetProcAddress` resolves `name` to a
non-null address in the current state, then after one call of
`gladLoadGLLoaderFromGLFW` the table entry for `name` is non-null (it is the
address the resolver gave). -/
theorem gladLoadGLLoaderFromGLFW_fills_entry {σ : Type} (E : Extern σ)
    (w : World σ) (name : String)
    (hfill : ∀ (load : GLADloadproc σ) (s : σ),
      E.glad_table (E.gladLoadGLLoader load s).2 name = load s name)
    (hres : E.glfwGetProcAddress w.ext name ≠ NULL) :
    E.glad_table (gladLoadGLLoaderFromGLFW E w).2.ext name ≠ NULL ∧
      E.glad_table (gladLoadGLLoaderFromGLFW E w).2.ext name
        = E.glfwGetProcAddress w.ext name := by
  have h : E.glad_table (gladLoadGLLoaderFromGLFW E w).2.ext name
      = E.glfwGetProcAddress w.ext name := by
    rw [gladLoadGLLoaderFromGLFW_ext, hfill]
  exact ⟨by rw [h]; exact hres, h⟩

/-- Witness of C6: `glClear` in the example libraries with a current
context; the entry is null before the call and non-null after it. -/
theorem gladLoadGLLoaderFromGLFW_fills_entry_witness :
    (demoExtern 1).glad_table demoWorld.ext "glClear" = NULL ∧
      (demoExtern 1).glad_table
        (gladLoadGLLoaderFromGLFW (demoExtern 1) demoWorld).2.ext "glClear" ≠ NULL :=
  ⟨by decide,
    (gladLoadGLLoaderFromGLFW_fills_entry (demoExtern 1) demoWorld "glClear"
      (fun _ _ => by simp [demoExtern, demoEntries, List.lookup])
      (by decide)).1⟩

/-- C7: `gladLoadGLLoaderFromGLFW` has no guard: in every world (whether or
not a context is current, whatever was called before) `n` calls in sequence
make exactly `n` calls of `gladLoadGLLoader`, each with the callback
`glfwGetProcAddress`, and the external state is the loader applied `n`
times. -/
theorem callLoaderTimes_invokes_loader_n_times {σ : Type} (E : Extern σ)
    (n : Nat) (w : World σ) :
    (callLoaderTimes E n w).trace
        = w.trace ++ List.replicate n (Event.gladLoadGLLoader E.glfwGetProcAddress) ∧
      countLoaderCalls (callLoaderTimes E n w).trace = countLoaderCalls w.trace + n ∧
      (callLoaderTimes E n w).ext
        = (fun s => (E.gladLoadGLLoader E.glfwGetProcAddress s).2)^[n] w.ext := by
  induction n generalizing w with
  | zero => simp [callLoaderTimes]
  | succ k ih =>
    obtain ⟨h1, h2, h3⟩ := ih (gladLoadGLLoaderFromGLFW E w).2
    refine ⟨?_, ?_, ?_⟩
    · show (callLoaderTimes E k (gladLoadGLLoaderFromGLFW E w).2).trace = _
      rw [h1, gladLoadGLLoaderFromGLFW_trace, List.replicate_succ]
      simp
    · show countLoaderCalls (callLoaderTimes E k (gladLoadGLLoaderFromGLFW E w).2).trace = _
      rw [h2, gladLoadGLLoaderFromGLFW_trace]
      simp [countLoaderCalls, loaderCalls_append, loaderCalls]
      omega
    · show (callLoaderTimes E k (gladLoadGLLoaderFromGLFW E w).2).ext = _
      rw [h3, gladLoadGLLoaderFromGLFW_ext, Function.iterate_succ_apply]

/-- Witness of C7: three calls without a current context, the loader
reporting failure each time, still make three loader calls. -/
theorem callLoaderTimes_invokes_loader_n_times_witness :
    countLoaderCalls (callLoaderTimes (demoExtern 0) 3 demoWorldNoContext).trace = 3 :=
  (callLoaderTimes_invokes_loader_n_times (demoExtern 0) 3 demoWorldNoContext).2.1

end ScarletUI
